import Mathlib

/-! Tiled preferences dialog, `src/tiled/preferencesdialog.cpp`.

A shallow embedding of `PreferencesDialog`: its constructor, `fromPreferences`,
`languageSelected`, `autoUpdateToggled` and `checkForUpdates`.

The dialog is glue between toolkit widgets and two singletons, so the state is a
record `World` holding the `Preferences` object, the log of `Preferences` setter
invocations, the optional `AutoUpdater`, the widget tree and the table of
signal/slot connections.  A widget setter that changes a value emits the widget's
signal, and `emit` runs every slot connected to it at that moment; the order of
the statements of the constructor is therefore observable in the model.
-/

namespace Tiled

/-! ## Values -/

/-- The `QVariant` values a language combo entry can carry: nothing (an invalid
variant, for entries inserted without user data) or a string. -/
inductive QVariant where
  | invalid
  | string (s : String)
  deriving DecidableEq, Repr

/-- Conversion `QVariant::toString`: an invalid variant converts to the empty string. -/
def QVariant.toString : QVariant → String
  | .invalid => ""
  | .string s => s

/-- A colour, carried unchanged between `Preferences` and the colour button. -/
structure QColor where
  rgba : Nat
  deriving DecidableEq, Repr

/-- The toolkit's real number type; the dialog only passes such values on, so a
rational stands for it. -/
abbrev qreal := Rat

/-! ## Preferences -/

/-- Modelled from the spec: the `Preferences` singleton (`preferences.h`, not part of
this source file) "holds key-value settings (language code, grid color, grid fine
value, object line width, boolean flags ...)". -/
structure Preferences where
  language : String
  gridColor : QColor
  gridFine : Int
  objectLineWidth : qreal
  dtdEnabled : Bool
  reloadTilesetsOnChange : Bool
  openLastFilesOnStartup : Bool
  useOpenGL : Bool
  pluginStates : List (String × Bool)
  deriving DecidableEq, Repr

/-- One invocation of a `Preferences` setter, with its argument. -/
inductive PrefCall where
  | setDtdEnabled (b : Bool)
  | setReloadTilesetsOnChanged (b : Bool)
  | setOpenLastFilesOnStartup (b : Bool)
  | setUseOpenGL (b : Bool)
  | setLanguage (language : String)
  | setGridColor (c : QColor)
  | setGridFine (v : Int)
  | setObjectLineWidth (v : qreal)
  | setPluginEnabled (fileName : String) (b : Bool)
  deriving DecidableEq, Repr

/-- Modelled from the spec: what a `Preferences` setter does to the settings object
(`preferences.cpp` is not part of this source file); each control change "writes
back to that singleton", so a setter stores its argument under its key. -/
def Preferences.run (p : Preferences) : PrefCall → Preferences
  | .setDtdEnabled b => { p with dtdEnabled := b }
  | .setReloadTilesetsOnChanged b => { p with reloadTilesetsOnChange := b }
  | .setOpenLastFilesOnStartup b => { p with openLastFilesOnStartup := b }
  | .setUseOpenGL b => { p with useOpenGL := b }
  | .setLanguage s => { p with language := s }
  | .setGridColor c => { p with gridColor := c }
  | .setGridFine v => { p with gridFine := v }
  | .setObjectLineWidth v => { p with objectLineWidth := v }
  | .setPluginEnabled n b => { p with pluginStates := (n, b) :: p.pluginStates }

/-! ## Auto-updater -/

/-- Modelled from the spec: the optional `AutoUpdater` singleton (`autoupdater.h`, not
part of this source file) "supplies update-check status": the automatic-check
setting, the last check date (already in the locale's long format) and the number
of checks requested so far. -/
structure AutoUpdater where
  automaticallyChecksForUpdates : Bool
  lastUpdateCheckDate : String
  checksRequested : Nat
  deriving DecidableEq, Repr

/-! ## Widgets -/

/-- A check box: only the two properties the dialog drives. -/
structure QCheckBox where
  enabled : Bool
  checked : Bool
  deriving DecidableEq, Repr

/-- A push button: the dialog only enables or disables it. -/
structure QPushButton where
  enabled : Bool
  deriving DecidableEq, Repr

/-- A text label. -/
structure QLabel where
  text : String
  deriving DecidableEq, Repr

/-- One row of a combo box: the display text and the user data. -/
structure ComboItem where
  text : String
  userData : QVariant
  deriving DecidableEq, Repr

/-- A combo box: its rows and the current index (`-1` when there is none). -/
structure QComboBox where
  items : List ComboItem
  currentIndex : Int
  deriving DecidableEq, Repr

namespace QComboBox

/-- The number of rows, `QComboBox::count`. -/
def count (c : QComboBox) : Int := c.items.length

/-- The lookup `QComboBox::itemData(index)` in the user role: the row's data, or an invalid
variant when `index` is not a row. -/
def itemData (c : QComboBox) : Int → QVariant
  | .ofNat n => match c.items[n]? with
    | some it => it.userData
    | none => .invalid
  | .negSucc _ => .invalid

/-- The search `QComboBox::findData(data)`: the first row whose user data equals `data`, or
`-1`.  Variants of different kinds are never equal. -/
def findData (c : QComboBox) (data : QVariant) : Int :=
  let i := c.items.findIdx (fun it => decide (it.userData = data))
  if i < c.items.length then (i : Int) else -1

/-- The widget state after `setCurrentIndex(index)`: an index that is not a row
clears the current index. -/
def setCurrentIndex (c : QComboBox) (index : Int) : QComboBox :=
  { c with currentIndex := if 0 ≤ index ∧ index < c.count then index else -1 }

/-- The widget state after `insertItem(index, text, userData)`: the row goes in at
`index` bounded to `0 .. count`; the first row of an empty combo becomes current,
otherwise the current row keeps its item and so moves down when the new row is
placed at or above it. -/
def insertItem (c : QComboBox) (index : Int) (text : String) (userData : QVariant) :
    QComboBox :=
  let i : Nat := (max 0 (min index c.count)).toNat
  { items := c.items.take i ++ ⟨text, userData⟩ :: c.items.drop i,
    currentIndex :=
      if c.items = [] ∧ c.currentIndex < 0 then 0
      else if (i : Int) ≤ c.currentIndex then c.currentIndex + 1
      else c.currentIndex }

/-- The widget state after `addItem(text, userData)`, which is
`insertItem(count(), text, userData)`. -/
def addItem (c : QComboBox) (text : String) (userData : QVariant) : QComboBox :=
  c.insertItem c.count text userData

/-- The widget state after `model()->sort(0)`: a stable ascending sort of the rows
by display text, compared character by character; the current index follows its
row. -/
def sort (c : QComboBox) : QComboBox :=
  let sorted := c.items.enum.insertionSort (fun a b => a.2.text ≤ b.2.text)
  { items := sorted.map Prod.snd,
    currentIndex :=
      let i := sorted.findIdx (fun a => decide ((a.1 : Int) = c.currentIndex))
      if i < sorted.length then (i : Int) else -1 }

end QComboBox

/-- The colour button showing the grid colour; it keeps the colour it is given. -/
structure ColorButton where
  color : QColor
  deriving DecidableEq, Repr

/-- The integer spin box showing the fine grid divisions: the range the designer
form gives it and its value. -/
structure QSpinBox where
  minimum : Int
  maximum : Int
  value : Int
  deriving DecidableEq, Repr

/-- The value a spin box keeps when `setValue(v)` is called: `v` bounded to the
range of the widget. -/
def QSpinBox.bound (s : QSpinBox) (v : Int) : Int :=
  if v < s.minimum then s.minimum else if s.maximum < v then s.maximum else v

/-- The real-valued spin box showing the object line width: the range the designer
form gives it and its value. -/
structure QDoubleSpinBox where
  minimum : qreal
  maximum : qreal
  value : qreal
  deriving DecidableEq, Repr

/-- The value a real-valued spin box keeps for an already rounded `v`: `v` bounded
to the range of the widget. -/
def QDoubleSpinBox.bound (s : QDoubleSpinBox) (v : qreal) : qreal :=
  if v < s.minimum then s.minimum else if s.maximum < v then s.maximum else v

/-- The widgets of the form that `preferencesdialog.cpp` touches. -/
structure Ui where
  enableDtd : QCheckBox
  reloadTilesetImages : QCheckBox
  openLastFiles : QCheckBox
  openGL : QCheckBox
  autoUpdateCheckBox : QCheckBox
  checkForUpdate : QPushButton
  lastAutoUpdateCheckLabel : QLabel
  languageCombo : QComboBox
  gridColor : ColorButton
  gridFine : QSpinBox
  objectLineWidth : QDoubleSpinBox
  deriving DecidableEq, Repr

/-- The check boxes of the form. -/
inductive CheckBoxId where
  | enableDtd
  | reloadTilesetImages
  | openLastFiles
  | openGL
  | autoUpdateCheckBox
  deriving DecidableEq, Repr

/-- The check box of the form named by `id`. -/
def Ui.checkBox (ui : Ui) : CheckBoxId → QCheckBox
  | .enableDtd => ui.enableDtd
  | .reloadTilesetImages => ui.reloadTilesetImages
  | .openLastFiles => ui.openLastFiles
  | .openGL => ui.openGL
  | .autoUpdateCheckBox => ui.autoUpdateCheckBox

/-- The form with the check box named by `id` replaced. -/
def Ui.withCheckBox (ui : Ui) (id : CheckBoxId) (cb : QCheckBox) : Ui :=
  match id with
  | .enableDtd => { ui with enableDtd := cb }
  | .reloadTilesetImages => { ui with reloadTilesetImages := cb }
  | .openLastFiles => { ui with openLastFiles := cb }
  | .openGL => { ui with openGL := cb }
  | .autoUpdateCheckBox => { ui with autoUpdateCheckBox := cb }

/-- What the dialog is given by its surroundings: the language manager's list of
available locale codes, whether the runtime has OpenGL (false as well when built
without it), the display name `Language (Country)` the locale database gives a
code, the translation of a source text, and what the designer form fixes for the
two spin boxes: the range of the grid spin box, the range of the line width spin
box and the rounding of a real number to the decimals that spin box shows. -/
structure Env where
  availableLanguages : List String
  hasOpenGL : Bool
  displayName : String → String
  tr : String → String
  gridFineMinimum : Int
  gridFineMaximum : Int
  objectLineWidthMinimum : qreal
  objectLineWidthMaximum : qreal
  roundObjectLineWidth : qreal → qreal

/-- Modelled from the spec: `setupUi` of the designer form (`ui_preferencesdialog.h`,
not part of this source file) "builds widget tree"; the widgets start in the
toolkit's initial state: check boxes enabled and unchecked, the button enabled,
the label and the combo empty with no current row, the colour button at colour
zero, the spin boxes at zero bounded to the range the form gives them. -/
def setupUi (env : Env) : Ui :=
  { enableDtd := ⟨true, false⟩
    reloadTilesetImages := ⟨true, false⟩
    openLastFiles := ⟨true, false⟩
    openGL := ⟨true, false⟩
    autoUpdateCheckBox := ⟨true, false⟩
    checkForUpdate := ⟨true⟩
    lastAutoUpdateCheckLabel := ⟨""⟩
    languageCombo := ⟨[], -1⟩
    gridColor := ⟨⟨0⟩⟩
    gridFine :=
      ⟨env.gridFineMinimum, env.gridFineMaximum,
        QSpinBox.bound ⟨env.gridFineMinimum, env.gridFineMaximum, 0⟩ 0⟩
    objectLineWidth :=
      ⟨env.objectLineWidthMinimum, env.objectLineWidthMaximum,
        QDoubleSpinBox.bound ⟨env.objectLineWidthMinimum, env.objectLineWidthMaximum, 0⟩ 0⟩ }

/-! ## Signals, slots and the state of the program -/

/-- The objects whose signal the constructor connects. -/
inductive Sender where
  | enableDtd
  | reloadTilesetImages
  | openLastFiles
  | openGL
  | autoUpdateCheckBox
  | languageCombo
  | gridColor
  | gridFine
  | objectLineWidth
  | checkForUpdate
  | pluginListModel
  deriving DecidableEq, Repr

/-- The argument a signal carries. -/
inductive SignalArg where
  | bool (b : Bool)
  | int (i : Int)
  | color (c : QColor)
  | real (v : qreal)
  | plugin (fileName : String) (b : Bool)
  | nothing
  deriving DecidableEq, Repr

/-- The receiving ends the constructor connects signals to. -/
inductive Slot where
  | setDtdEnabled
  | setReloadTilesetsOnChanged
  | setOpenLastFilesOnStartup
  | setUseOpenGL
  | setGridColor
  | setGridFine
  | setObjectLineWidth
  | setPluginEnabled
  | languageSelected
  | autoUpdateToggled
  | checkForUpdates
  deriving DecidableEq, Repr

/-- The state the dialog's code reads and writes. -/
structure World where
  prefs : Preferences
  prefCalls : List PrefCall
  updater : Option AutoUpdater
  mLanguages : List String
  ui : Ui
  connections : List (Sender × Slot)
  deriving DecidableEq, Repr

/-- The signal of a check box is sent by the check box itself. -/
def CheckBoxId.sender : CheckBoxId → Sender
  | .enableDtd => .enableDtd
  | .reloadTilesetImages => .reloadTilesetImages
  | .openLastFiles => .openLastFiles
  | .openGL => .openGL
  | .autoUpdateCheckBox => .autoUpdateCheckBox

/-- Invoke a `Preferences` setter: the call is logged and the settings updated. -/
def World.callPrefs (w : World) (c : PrefCall) : World :=
  { w with prefs := w.prefs.run c, prefCalls := w.prefCalls ++ [c] }

/-- The slot `PreferencesDialog::languageSelected(index)`: the item data of the row,
as a string, becomes the stored language. -/
def languageSelected (index : Int) (w : World) : World :=
  let language := (w.ui.languageCombo.itemData index).toString
  w.callPrefs (.setLanguage language)

/-- The slot `PreferencesDialog::autoUpdateToggled(checked)`: forwarded to the updater
when there is one. -/
def autoUpdateToggled (checked : Bool) (w : World) : World :=
  match w.updater with
  | some updater =>
    { w with updater := some { updater with automaticallyChecksForUpdates := checked } }
  | none => w

/-- The slot `PreferencesDialog::checkForUpdates()`: a check is requested from the
updater when there is one. -/
def checkForUpdates (w : World) : World :=
  match w.updater with
  | some updater =>
    { w with updater := some { updater with checksRequested := updater.checksRequested + 1 } }
  | none => w

/-- Run one slot with the argument of the signal that reached it. -/
def invoke (w : World) : Slot → SignalArg → World
  | .setDtdEnabled, .bool b => w.callPrefs (.setDtdEnabled b)
  | .setReloadTilesetsOnChanged, .bool b => w.callPrefs (.setReloadTilesetsOnChanged b)
  | .setOpenLastFilesOnStartup, .bool b => w.callPrefs (.setOpenLastFilesOnStartup b)
  | .setUseOpenGL, .bool b => w.callPrefs (.setUseOpenGL b)
  | .setGridColor, .color c => w.callPrefs (.setGridColor c)
  | .setGridFine, .int v => w.callPrefs (.setGridFine v)
  | .setObjectLineWidth, .real v => w.callPrefs (.setObjectLineWidth v)
  | .setPluginEnabled, .plugin n b => w.callPrefs (.setPluginEnabled n b)
  | .languageSelected, .int i => languageSelected i w
  | .autoUpdateToggled, .bool b => autoUpdateToggled b w
  | .checkForUpdates, _ => checkForUpdates w
  | _, _ => w

/-- Emit a signal: every slot connected to the sender runs, in connection order. -/
def emit (sender : Sender) (arg : SignalArg) (w : World) : World :=
  (w.connections.filter (fun c => decide (c.1 = sender))).foldl
    (fun w c => invoke w c.2 arg) w

/-- The call `QObject::connect(sender, signal, receiver, slot)`. -/
def connect (sender : Sender) (slot : Slot) (w : World) : World :=
  { w with connections := w.connections ++ [(sender, slot)] }

/-! ## Widget setters -/

/-- The setter `setEnabled` on a check box. -/
def setEnabled (id : CheckBoxId) (b : Bool) (w : World) : World :=
  { w with ui := w.ui.withCheckBox id { w.ui.checkBox id with enabled := b } }

/-- The setter `setChecked` on a check box: nothing happens when the state is already `b`,
otherwise the state changes and `toggled(b)` is emitted. -/
def setChecked (id : CheckBoxId) (b : Bool) (w : World) : World :=
  if (w.ui.checkBox id).checked = b then w
  else
    emit id.sender (.bool b)
      { w with ui := w.ui.withCheckBox id { w.ui.checkBox id with checked := b } }

/-- The method `toggle` on a check box, what a click does: `setChecked(!checked)`. -/
def toggle (id : CheckBoxId) (w : World) : World :=
  setChecked id (!(w.ui.checkBox id).checked) w

/-- Apply a change to the language combo; `currentIndexChanged` is emitted when
the current index is different afterwards. -/
def updateLanguageCombo (f : QComboBox → QComboBox) (w : World) : World :=
  let c := f w.ui.languageCombo
  let w1 : World := { w with ui := { w.ui with languageCombo := c } }
  if c.currentIndex = w.ui.languageCombo.currentIndex then w1
  else emit .languageCombo (.int c.currentIndex) w1

/-- The setter `setColor` on the colour button; `colorChanged` is emitted on a change. -/
def setColor (c : QColor) (w : World) : World :=
  if w.ui.gridColor.color = c then w
  else emit .gridColor (.color c) { w with ui := { w.ui with gridColor := ⟨c⟩ } }

/-- The setter `setValue` on the grid spin box: the widget keeps `v` bounded to its
range, and `valueChanged` is emitted with the kept value when that is a change. -/
def setGridFineValue (v : Int) (w : World) : World :=
  let kept := w.ui.gridFine.bound v
  if w.ui.gridFine.value = kept then w
  else
    emit .gridFine (.int kept)
      { w with ui := { w.ui with gridFine := { w.ui.gridFine with value := kept } } }

/-- The setter `setValue` on the line width spin box: the widget keeps `v` rounded
to its decimals and then bounded to its range, and `valueChanged` is emitted with
the kept value when that is a change. -/
def setObjectLineWidthValue (env : Env) (v : qreal) (w : World) : World :=
  let kept := w.ui.objectLineWidth.bound (env.roundObjectLineWidth v)
  if w.ui.objectLineWidth.value = kept then w
  else
    emit .objectLineWidth (.real kept)
      { w with ui :=
        { w.ui with objectLineWidth := { w.ui.objectLineWidth with value := kept } } }

/-! ## The dialog -/

/-- The method `PreferencesDialog::fromPreferences()`: every widget is set from the
settings object, the settings being read at each statement. -/
def fromPreferences (env : Env) (w : World) : World :=
  let w := setChecked .reloadTilesetImages w.prefs.reloadTilesetsOnChange w
  let w := setChecked .enableDtd w.prefs.dtdEnabled w
  let w := setChecked .openLastFiles w.prefs.openLastFilesOnStartup w
  let w := if w.ui.openGL.enabled then setChecked .openGL w.prefs.useOpenGL w else w
  -- Not found (-1) ends up at index 0, system default
  let languageIndex := w.ui.languageCombo.findData (.string w.prefs.language)
  let languageIndex := if languageIndex = -1 then 0 else languageIndex
  let w := updateLanguageCombo (fun c => c.setCurrentIndex languageIndex) w
  let w := setColor w.prefs.gridColor w
  let w := setGridFineValue w.prefs.gridFine w
  let w := setObjectLineWidthValue env w.prefs.objectLineWidth w
  -- Auto-updater settings
  let w := setEnabled .autoUpdateCheckBox w.updater.isSome w
  let w : World := { w with ui := { w.ui with checkForUpdate := ⟨w.updater.isSome⟩ } }
  match w.updater with
  | some updater =>
    let w := setChecked .autoUpdateCheckBox updater.automaticallyChecksForUpdates w
    { w with ui := { w.ui with lastAutoUpdateCheckLabel :=
        ⟨(env.tr "Last checked: %1").replace "%1" updater.lastUpdateCheckDate⟩ } }
  | none => w

/-- The language combo filled by the constructor's loop: one `addItem` per
available locale code, in list order. -/
def addLanguages (env : Env) (names : List String) (w : World) : World :=
  names.foldl
    (fun w name =>
      updateLanguageCombo (fun c => c.addItem (env.displayName name) (.string name)) w)
    w

/-- The constructor up to the call of `fromPreferences` (source lines 39-71), on
the settings and the updater present at that moment.  The plugin list view built
after the combo touches none of the state modelled here. -/
def PreferencesDialog.buildWidgets (env : Env) (prefs : Preferences)
    (updater : Option AutoUpdater) : World :=
  let w : World :=
    { prefs := prefs, prefCalls := [], updater := updater,
      mLanguages := env.availableLanguages, ui := setupUi env, connections := [] }
  let w := setEnabled .openGL env.hasOpenGL w
  let w := addLanguages env w.mLanguages w
  let w := updateLanguageCombo QComboBox.sort w
  let w := updateLanguageCombo
    (fun c => c.insertItem 0 (env.tr "System default") .invalid) w
  w

/-- The `connect` statements that end the constructor (source lines 75-101). -/
def PreferencesDialog.connectSignals (w : World) : World :=
  let w := connect .enableDtd .setDtdEnabled w
  let w := connect .reloadTilesetImages .setReloadTilesetsOnChanged w
  let w := connect .openLastFiles .setOpenLastFilesOnStartup w
  let w := connect .languageCombo .languageSelected w
  let w := connect .gridColor .setGridColor w
  let w := connect .gridFine .setGridFine w
  let w := connect .objectLineWidth .setObjectLineWidth w
  let w := connect .openGL .setUseOpenGL w
  let w := connect .autoUpdateCheckBox .autoUpdateToggled w
  let w := connect .checkForUpdate .checkForUpdates w
  let w := connect .pluginListModel .setPluginEnabled w
  w

/-- The constructor `PreferencesDialog::PreferencesDialog(parent)`: the widgets are built, then
filled by `fromPreferences`, and only then are the signals connected. -/
def PreferencesDialog.create (env : Env) (prefs : Preferences)
    (updater : Option AutoUpdater) : World :=
  PreferencesDialog.connectSignals
    (fromPreferences env (PreferencesDialog.buildWidgets env prefs updater))

/-! ## Definitions used to state and prove the properties -/

/-- The row the constructor adds for a locale code. -/
def languageItem (env : Env) (name : String) : ComboItem :=
  ⟨env.displayName name, .string name⟩

/-- The order `model()->sort(0)` puts rows in: by display text. -/
def textLE (a b : ComboItem) : Prop := a.text ≤ b.text

instance : DecidableRel textLE := fun a b => inferInstanceAs (Decidable (a.text ≤ b.text))

instance : IsTotal ComboItem textLE := ⟨fun a b => le_total a.text b.text⟩

instance : IsTrans ComboItem textLE := ⟨fun _ _ _ h₁ h₂ => le_trans h₁ h₂⟩

/-- The combo after the constructor's loop over `names`, widget state only. -/
def addedLanguages (env : Env) (names : List String) (c : QComboBox) : QComboBox :=
  names.foldl (fun c name => c.addItem (env.displayName name) (.string name)) c

/-- The language combo as the constructor leaves it for `fromPreferences`. -/
def builtCombo (env : Env) : QComboBox :=
  ((addedLanguages env env.availableLanguages ⟨[], -1⟩).sort).insertItem 0
    (env.tr "System default") .invalid

/-- The row `fromPreferences` makes current for a stored language code. -/
def languageIndex (c : QComboBox) (language : String) : Int :=
  if c.findData (.string language) = -1 then 0 else c.findData (.string language)

/-- The statements of `fromPreferences` before the auto-updater settings. -/
def fromPreferencesSettings (env : Env) (w : World) : World :=
  let w := setChecked .reloadTilesetImages w.prefs.reloadTilesetsOnChange w
  let w := setChecked .enableDtd w.prefs.dtdEnabled w
  let w := setChecked .openLastFiles w.prefs.openLastFilesOnStartup w
  let w := if w.ui.openGL.enabled then setChecked .openGL w.prefs.useOpenGL w else w
  let languageIndex := w.ui.languageCombo.findData (.string w.prefs.language)
  let languageIndex := if languageIndex = -1 then 0 else languageIndex
  let w := updateLanguageCombo (fun c => c.setCurrentIndex languageIndex) w
  let w := setColor w.prefs.gridColor w
  let w := setGridFineValue w.prefs.gridFine w
  let w := setObjectLineWidthValue env w.prefs.objectLineWidth w
  w

/-- The statements of `fromPreferences` from the auto-updater settings on. -/
def fromPreferencesUpdater (env : Env) (w : World) : World :=
  let w := setEnabled .autoUpdateCheckBox w.updater.isSome w
  let w : World := { w with ui := { w.ui with checkForUpdate := ⟨w.updater.isSome⟩ } }
  match w.updater with
  | some updater =>
    let w := setChecked .autoUpdateCheckBox updater.automaticallyChecksForUpdates w
    { w with ui := { w.ui with lastAutoUpdateCheckLabel :=
        ⟨(env.tr "Last checked: %1").replace "%1" updater.lastUpdateCheckDate⟩ } }
  | none => w

/-- The connection table the constructor builds, in source order. -/
def wiring : List (Sender × Slot) :=
  [(.enableDtd, .setDtdEnabled), (.reloadTilesetImages, .setReloadTilesetsOnChanged),
   (.openLastFiles, .setOpenLastFilesOnStartup), (.languageCombo, .languageSelected),
   (.gridColor, .setGridColor), (.gridFine, .setGridFine),
   (.objectLineWidth, .setObjectLineWidth), (.openGL, .setUseOpenGL),
   (.autoUpdateCheckBox, .autoUpdateToggled), (.checkForUpdate, .checkForUpdates),
   (.pluginListModel, .setPluginEnabled)]

/-- Rounding to one decimal, halves upwards. -/
def roundToTenths (v : qreal) : qreal := (Rat.floor (v * 10 + 1 / 2) : Int) / 10

/-- A runtime without OpenGL offering one translation, Dutch; the grid spin box
ranges over 1 .. 128, the line width spin box over 0 .. 100 with one decimal. -/
def sampleEnv : Env :=
  { availableLanguages := ["nl"], hasOpenGL := false,
    displayName := fun name => name, tr := fun text => text,
    gridFineMinimum := 1, gridFineMaximum := 128,
    objectLineWidthMinimum := 0, objectLineWidthMaximum := 100,
    roundObjectLineWidth := roundToTenths }

/-- The runtime of `sampleEnv` with a line width spin box that shows every decimal. -/
def exactEnv : Env := { sampleEnv with roundObjectLineWidth := fun v => v }

/-- The same runtime, with a list of available languages that holds one code, the
empty string. -/
def emptyCodeEnv : Env := { sampleEnv with availableLanguages := [""] }

/-- Settings that ask for French and for OpenGL, all other flags off. -/
def samplePrefs : Preferences :=
  { language := "fr", gridColor := ⟨0⟩, gridFine := 4, objectLineWidth := 2,
    dtdEnabled := false, reloadTilesetsOnChange := false, openLastFilesOnStartup := false,
    useOpenGL := true, pluginStates := [] }

/-- The settings of `samplePrefs` with Dutch as the stored language. -/
def dutchPrefs : Preferences := { samplePrefs with language := "nl" }

/-- The settings of `samplePrefs` with 1000 grid divisions, above the range of the
spin box, and a line width of 1.234, which has more than one decimal. -/
def wideGridPrefs : Preferences :=
  { samplePrefs with gridFine := 1000, objectLineWidth := 617 / 500 }

/-! ## Slots leave the connection table alone -/

theorem invoke_connections (w : World) (s : Slot) (a : SignalArg) :
    (invoke w s a).connections = w.connections := by
  cases s <;> cases a <;> simp [invoke, World.callPrefs, languageSelected, autoUpdateToggled,
    checkForUpdates] <;> split <;> rfl

theorem foldl_invoke_connections (a : SignalArg) (l : List (Sender × Slot)) (w : World) :
    (l.foldl (fun w c => invoke w c.2 a) w).connections = w.connections := by
  induction l generalizing w with
  | nil => rfl
  | cons c cs ih => rw [List.foldl_cons, ih, invoke_connections]

theorem emit_connections (s : Sender) (a : SignalArg) (w : World) :
    (emit s a w).connections = w.connections :=
  foldl_invoke_connections a _ w

theorem emit_quiet {w : World} (h : w.connections = []) (s : Sender) (a : SignalArg) :
    emit s a w = w := by
  simp [emit, h]

/-! ## Widget setters while nothing is connected -/

theorem setEnabled_connections (id : CheckBoxId) (b : Bool) (w : World) :
    (setEnabled id b w).connections = w.connections := rfl

theorem setChecked_quiet {w : World} (h : w.connections = []) (id : CheckBoxId) (b : Bool) :
    setChecked id b w =
      { w with ui := w.ui.withCheckBox id { w.ui.checkBox id with checked := b } } := by
  unfold setChecked
  split
  · next hc =>
    obtain ⟨_, _, _, _, ui, _⟩ := w
    obtain ⟨_, _, _, _, _, _, _, _, _, _, _⟩ := ui
    cases id <;> simp_all [Ui.checkBox, Ui.withCheckBox] <;> subst hc <;> rfl
  · exact emit_quiet (by simpa using h) _ _

theorem updateLanguageCombo_connections (f : QComboBox → QComboBox) (w : World) :
    (updateLanguageCombo f w).connections = w.connections := by
  simp only [updateLanguageCombo]
  split
  · rfl
  · rw [emit_connections]

theorem updateLanguageCombo_quiet {w : World} (h : w.connections = [])
    (f : QComboBox → QComboBox) :
    updateLanguageCombo f w =
      { w with ui := { w.ui with languageCombo := f w.ui.languageCombo } } := by
  simp only [updateLanguageCombo]
  split
  · rfl
  · exact emit_quiet (by simpa using h) _ _

theorem setColor_quiet {w : World} (h : w.connections = []) (c : QColor) :
    setColor c w = { w with ui := { w.ui with gridColor := ⟨c⟩ } } := by
  unfold setColor
  split
  · next hc => rw [← hc]
  · exact emit_quiet (by simpa using h) _ _

theorem setGridFineValue_quiet {w : World} (h : w.connections = []) (v : Int) :
    setGridFineValue v w =
      { w with ui :=
        { w.ui with gridFine := { w.ui.gridFine with value := w.ui.gridFine.bound v } } } := by
  simp only [setGridFineValue]
  split
  · next hc => rw [← hc]
  · exact emit_quiet (by simpa using h) _ _

theorem setObjectLineWidthValue_quiet (env : Env) {w : World} (h : w.connections = [])
    (v : qreal) :
    setObjectLineWidthValue env v w =
      { w with ui :=
        { w.ui with objectLineWidth :=
          { w.ui.objectLineWidth with
            value := w.ui.objectLineWidth.bound (env.roundObjectLineWidth v) } } } := by
  simp only [setObjectLineWidthValue]
  split
  · next hc => rw [← hc]
  · exact emit_quiet (by simpa using h) _ _

/-! ## The rows of the language combo -/

theorem addItem_items (c : QComboBox) (t : String) (d : QVariant) :
    (c.addItem t d).items = c.items ++ [⟨t, d⟩] := by
  simp [QComboBox.addItem, QComboBox.insertItem, QComboBox.count]

theorem insertItem_zero_items (c : QComboBox) (t : String) (d : QVariant) :
    (c.insertItem 0 t d).items = ⟨t, d⟩ :: c.items := by
  have h : min (0 : Int) c.count = 0 := by
    simp [QComboBox.count]
  simp [QComboBox.insertItem, h]

theorem sort_items (c : QComboBox) : c.sort.items = c.items.insertionSort textLE := by
  have h := List.map_insertionSort (fun a b : Nat × ComboItem => a.2.text ≤ b.2.text) textLE
    Prod.snd c.items.enum (fun _ _ _ _ => Iff.rfl)
  simpa [QComboBox.sort] using h

theorem addedLanguages_items (env : Env) (names : List String) (c : QComboBox) :
    (addedLanguages env names c).items = c.items ++ names.map (languageItem env) := by
  induction names generalizing c with
  | nil => simp [addedLanguages]
  | cons n ns ih =>
    have := ih (c.addItem (env.displayName n) (.string n))
    simp only [addedLanguages, List.foldl_cons] at this ⊢
    rw [this, addItem_items]
    simp [languageItem]

theorem addLanguages_quiet (env : Env) (names : List String) {w : World}
    (h : w.connections = []) :
    addLanguages env names w =
      { w with ui := { w.ui with languageCombo := addedLanguages env names w.ui.languageCombo } } := by
  induction names generalizing w with
  | nil => rfl
  | cons n ns ih =>
    simp only [addLanguages, List.foldl_cons] at ih ⊢
    rw [updateLanguageCombo_quiet h, ih (by simpa using h)]
    rfl

theorem builtCombo_items (env : Env) :
    (builtCombo env).items =
      ⟨env.tr "System default", .invalid⟩ ::
        (env.availableLanguages.map (languageItem env)).insertionSort textLE := by
  simp [builtCombo, insertItem_zero_items, sort_items, addedLanguages_items]

theorem builtCombo_count_pos (env : Env) : 0 < (builtCombo env).count := by
  simp [QComboBox.count, builtCombo_items]

/-! ## Looking rows up -/

theorem findData_eq_neg_one_iff (c : QComboBox) (d : QVariant) :
    c.findData d = -1 ↔ ∀ it ∈ c.items, it.userData ≠ d := by
  unfold QComboBox.findData
  simp only
  split
  · next h =>
    constructor
    · intro h'; omega
    · intro h'
      obtain ⟨x, hx, hp⟩ := List.findIdx_lt_length.mp h
      exact absurd (of_decide_eq_true hp) (h' x hx)
  · next h =>
    simp only [true_iff]
    intro it hit heq
    exact h (List.findIdx_lt_length.mpr ⟨it, hit, decide_eq_true heq⟩)

theorem findData_found (c : QComboBox) (d : QVariant) (h : c.findData d ≠ -1) :
    0 ≤ c.findData d ∧ c.findData d < c.count ∧ c.itemData (c.findData d) = d := by
  unfold QComboBox.findData at h ⊢
  simp only at h ⊢
  split at h
  · next hlt =>
    rw [if_pos hlt]
    refine ⟨Int.ofNat_nonneg _, by simpa [QComboBox.count] using hlt, ?_⟩
    show QComboBox.itemData c (Int.ofNat _) = d
    simp only [QComboBox.itemData, List.getElem?_eq_getElem hlt]
    exact of_decide_eq_true (List.findIdx_getElem (w := hlt))
  · exact absurd rfl h

theorem itemData_mem (c : QComboBox) (i : Int) (h0 : 0 ≤ i) (h1 : i < c.count) :
    ∃ it, c.items[i.toNat]? = some it ∧ c.itemData i = it.userData := by
  obtain ⟨n, rfl⟩ := Int.eq_ofNat_of_zero_le h0
  have hn : n < c.items.length := by simpa [QComboBox.count] using h1
  refine ⟨c.items[n], by simp [List.getElem?_eq_getElem hn], ?_⟩
  show QComboBox.itemData c (Int.ofNat n) = _
  simp only [QComboBox.itemData, List.getElem?_eq_getElem hn]

theorem itemData_items (c c' : QComboBox) (h : c.items = c'.items) (i : Int) :
    c.itemData i = c'.itemData i := by
  cases i <;> simp [QComboBox.itemData, h]

theorem setCurrentIndex_valid (c : QComboBox) (i : Int) (h0 : 0 ≤ i) (h1 : i < c.count) :
    (c.setCurrentIndex i).currentIndex = i := by
  simp [QComboBox.setCurrentIndex, h0, h1]

theorem languageIndex_valid (c : QComboBox) (language : String) (h : 0 < c.count) :
    0 ≤ languageIndex c language ∧ languageIndex c language < c.count := by
  unfold languageIndex
  split
  · exact ⟨le_refl _, h⟩
  · next hne => exact ⟨(findData_found c _ hne).1, (findData_found c _ hne).2.1⟩

theorem language_row_of_index (env : Env) (i : Int) (h1 : 1 ≤ i)
    (h2 : i < (builtCombo env).count) :
    ∃ c ∈ env.availableLanguages, (builtCombo env).itemData i = .string c := by
  obtain ⟨it, hit, hdata⟩ := itemData_mem (builtCombo env) i (by omega) h2
  obtain ⟨n, hn⟩ : ∃ n : Nat, i.toNat = n + 1 := ⟨i.toNat - 1, by omega⟩
  rw [hn, builtCombo_items, List.getElem?_cons_succ] at hit
  have hmem : it ∈ env.availableLanguages.map (languageItem env) :=
    (List.perm_insertionSort textLE _).mem_iff.mp (List.getElem?_mem hit)
  obtain ⟨c, hc, rfl⟩ := List.mem_map.mp hmem
  exact ⟨c, hc, hdata⟩

/-! ## Rounding to one decimal -/

theorem roundToTenths_two : roundToTenths 2 = 2 := by
  have h : Rat.floor ((2 : qreal) * 10 + 1 / 2) = 20 := by
    show ⌊(2 : ℚ) * 10 + 1 / 2⌋ = 20
    rw [Int.floor_eq_iff]
    norm_num
  unfold roundToTenths
  rw [h]
  norm_num

theorem roundToTenths_example : roundToTenths (617 / 500) = 6 / 5 := by
  have h : Rat.floor ((617 / 500 : qreal) * 10 + 1 / 2) = 12 := by
    show ⌊(617 / 500 : ℚ) * 10 + 1 / 2⌋ = 12
    rw [Int.floor_eq_iff]
    norm_num
  unfold roundToTenths
  rw [h]
  norm_num

/-! ## The slots -/

theorem languageSelected_prefCalls (i : Int) (w : World) :
    (languageSelected i w).prefCalls =
      w.prefCalls ++ [.setLanguage (w.ui.languageCombo.itemData i).toString] := rfl

theorem languageSelected_prefs (i : Int) (w : World) :
    (languageSelected i w).prefs =
      w.prefs.run (.setLanguage (w.ui.languageCombo.itemData i).toString) := rfl

theorem languageSelected_language (i : Int) (w : World) :
    (languageSelected i w).prefs.language = (w.ui.languageCombo.itemData i).toString := rfl

/-! ## The constructor, statement by statement -/

theorem buildWidgets_eq (env : Env) (prefs : Preferences) (updater : Option AutoUpdater) :
    PreferencesDialog.buildWidgets env prefs updater =
      { prefs := prefs, prefCalls := [], updater := updater,
        mLanguages := env.availableLanguages,
        ui := { setupUi env with openGL := ⟨env.hasOpenGL, false⟩, languageCombo := builtCombo env },
        connections := [] } := by
  simp only [PreferencesDialog.buildWidgets]
  rw [updateLanguageCombo_quiet (by simp [updateLanguageCombo_connections,
      addLanguages_quiet, setEnabled_connections]),
    updateLanguageCombo_quiet (by simp [addLanguages_quiet, setEnabled_connections]),
    addLanguages_quiet env _ (by simp [setEnabled_connections])]
  rfl

theorem fromPreferences_halves (env : Env) (w : World) :
    fromPreferences env w = fromPreferencesUpdater env (fromPreferencesSettings env w) := rfl

theorem fromPreferencesSettings_quiet (env : Env) {w : World} (h : w.connections = []) :
    fromPreferencesSettings env w =
      { w with ui :=
        { w.ui with
          enableDtd := { w.ui.enableDtd with checked := w.prefs.dtdEnabled }
          reloadTilesetImages :=
            { w.ui.reloadTilesetImages with checked := w.prefs.reloadTilesetsOnChange }
          openLastFiles :=
            { w.ui.openLastFiles with checked := w.prefs.openLastFilesOnStartup }
          openGL :=
            if w.ui.openGL.enabled then { w.ui.openGL with checked := w.prefs.useOpenGL }
            else w.ui.openGL
          languageCombo :=
            w.ui.languageCombo.setCurrentIndex (languageIndex w.ui.languageCombo w.prefs.language)
          gridColor := ⟨w.prefs.gridColor⟩
          gridFine := { w.ui.gridFine with value := w.ui.gridFine.bound w.prefs.gridFine }
          objectLineWidth :=
            { w.ui.objectLineWidth with
              value :=
                w.ui.objectLineWidth.bound (env.roundObjectLineWidth w.prefs.objectLineWidth) } } } := by
  obtain ⟨prefs, calls, updater, langs, ui, conns⟩ := w
  obtain ⟨_, _, _, ⟨ge, gc⟩, _, _, _, _, _, _, _⟩ := ui
  simp only at h
  subst h
  cases ge <;>
    simp only [fromPreferencesSettings, setChecked_quiet, updateLanguageCombo_quiet,
      setColor_quiet, setGridFineValue_quiet, setObjectLineWidthValue_quiet, Ui.withCheckBox,
      Ui.checkBox, languageIndex, Bool.false_eq_true, if_false, if_true]

theorem fromPreferencesUpdater_quiet (env : Env) {w : World} (h : w.connections = []) :
    fromPreferencesUpdater env w =
      { w with ui :=
        { w.ui with
          autoUpdateCheckBox :=
            ⟨w.updater.isSome,
              match w.updater with
              | some u => u.automaticallyChecksForUpdates
              | none => w.ui.autoUpdateCheckBox.checked⟩
          checkForUpdate := ⟨w.updater.isSome⟩
          lastAutoUpdateCheckLabel :=
            match w.updater with
            | some u => ⟨(env.tr "Last checked: %1").replace "%1" u.lastUpdateCheckDate⟩
            | none => w.ui.lastAutoUpdateCheckLabel } } := by
  obtain ⟨prefs, calls, updater, langs, ui, conns⟩ := w
  obtain ⟨_, _, _, _, _, _, _, _, _, _, _⟩ := ui
  simp only at h
  subst h
  cases updater <;>
    simp only [fromPreferencesUpdater, setChecked_quiet, setEnabled, Ui.withCheckBox,
      Ui.checkBox, Option.isSome]

theorem fromPreferences_quiet (env : Env) {w : World} (h : w.connections = []) :
    fromPreferences env w =
      { w with ui :=
        { enableDtd := { w.ui.enableDtd with checked := w.prefs.dtdEnabled }
          reloadTilesetImages :=
            { w.ui.reloadTilesetImages with checked := w.prefs.reloadTilesetsOnChange }
          openLastFiles :=
            { w.ui.openLastFiles with checked := w.prefs.openLastFilesOnStartup }
          openGL :=
            if w.ui.openGL.enabled then { w.ui.openGL with checked := w.prefs.useOpenGL }
            else w.ui.openGL
          autoUpdateCheckBox :=
            ⟨w.updater.isSome,
              match w.updater with
              | some u => u.automaticallyChecksForUpdates
              | none => w.ui.autoUpdateCheckBox.checked⟩
          checkForUpdate := ⟨w.updater.isSome⟩
          lastAutoUpdateCheckLabel :=
            match w.updater with
            | some u => ⟨(env.tr "Last checked: %1").replace "%1" u.lastUpdateCheckDate⟩
            | none => w.ui.lastAutoUpdateCheckLabel
          languageCombo :=
            w.ui.languageCombo.setCurrentIndex (languageIndex w.ui.languageCombo w.prefs.language)
          gridColor := ⟨w.prefs.gridColor⟩
          gridFine := { w.ui.gridFine with value := w.ui.gridFine.bound w.prefs.gridFine }
          objectLineWidth :=
            { w.ui.objectLineWidth with
              value :=
                w.ui.objectLineWidth.bound (env.roundObjectLineWidth w.prefs.objectLineWidth) } } } := by
  rw [fromPreferences_halves, fromPreferencesSettings_quiet env h,
    fromPreferencesUpdater_quiet env (by simpa using h)]

theorem create_eq (env : Env) (prefs : Preferences) (updater : Option AutoUpdater) :
    PreferencesDialog.create env prefs updater =
      { prefs := prefs, prefCalls := [], updater := updater,
        mLanguages := env.availableLanguages,
        ui :=
          { enableDtd := ⟨true, prefs.dtdEnabled⟩
            reloadTilesetImages := ⟨true, prefs.reloadTilesetsOnChange⟩
            openLastFiles := ⟨true, prefs.openLastFilesOnStartup⟩
            openGL := ⟨env.hasOpenGL, env.hasOpenGL && prefs.useOpenGL⟩
            autoUpdateCheckBox :=
              ⟨updater.isSome,
                match updater with
                | some u => u.automaticallyChecksForUpdates
                | none => false⟩
            checkForUpdate := ⟨updater.isSome⟩
            lastAutoUpdateCheckLabel :=
              match updater with
              | some u => ⟨(env.tr "Last checked: %1").replace "%1" u.lastUpdateCheckDate⟩
              | none => ⟨""⟩
            languageCombo :=
              (builtCombo env).setCurrentIndex (languageIndex (builtCombo env) prefs.language)
            gridColor := ⟨prefs.gridColor⟩
            gridFine :=
              ⟨env.gridFineMinimum, env.gridFineMaximum,
                QSpinBox.bound ⟨env.gridFineMinimum, env.gridFineMaximum, 0⟩ prefs.gridFine⟩
            objectLineWidth :=
              ⟨env.objectLineWidthMinimum, env.objectLineWidthMaximum,
                QDoubleSpinBox.bound ⟨env.objectLineWidthMinimum, env.objectLineWidthMaximum, 0⟩
                  (env.roundObjectLineWidth prefs.objectLineWidth)⟩ },
        connections := wiring } := by
  unfold PreferencesDialog.create
  rw [buildWidgets_eq, fromPreferences_quiet env (by rfl)]
  cases h : env.hasOpenGL <;>
    simp [PreferencesDialog.connectSignals, connect, setupUi, wiring, QSpinBox.bound,
      QDoubleSpinBox.bound]

theorem create_updater (env : Env) (prefs : Preferences) (updater : Option AutoUpdater) :
    (PreferencesDialog.create env prefs updater).updater = updater := by
  rw [create_eq]

theorem create_prefCalls (env : Env) (prefs : Preferences) (updater : Option AutoUpdater) :
    (PreferencesDialog.create env prefs updater).prefCalls = [] := by
  rw [create_eq]

theorem create_prefs (env : Env) (prefs : Preferences) (updater : Option AutoUpdater) :
    (PreferencesDialog.create env prefs updater).prefs = prefs := by
  rw [create_eq]

theorem create_languageCombo (env : Env) (prefs : Preferences) (updater : Option AutoUpdater) :
    (PreferencesDialog.create env prefs updater).ui.languageCombo =
      { items := (builtCombo env).items,
        currentIndex := languageIndex (builtCombo env) prefs.language } := by
  rw [create_eq]
  have h := languageIndex_valid (builtCombo env) prefs.language (builtCombo_count_pos env)
  simp [QComboBox.setCurrentIndex, h.1, h.2]

theorem create_items (env : Env) (prefs : Preferences) (updater : Option AutoUpdater) :
    (PreferencesDialog.create env prefs updater).ui.languageCombo.items =
      ⟨env.tr "System default", .invalid⟩ ::
        (env.availableLanguages.map (languageItem env)).insertionSort textLE := by
  rw [create_languageCombo]
  exact builtCombo_items env

theorem create_itemData (env : Env) (prefs : Preferences) (updater : Option AutoUpdater)
    (i : Int) :
    (PreferencesDialog.create env prefs updater).ui.languageCombo.itemData i =
      (builtCombo env).itemData i :=
  itemData_items _ _ (by rw [create_languageCombo]) i

theorem builtCombo_itemData_zero (env : Env) : (builtCombo env).itemData 0 = .invalid := by
  show QComboBox.itemData _ (Int.ofNat 0) = _
  simp only [QComboBox.itemData, builtCombo_items, List.getElem?_cons_zero]

/-! ## The claims -/

/-- C1: after the constructor has run, for every available locale code the language
combo contains an entry whose item data is that code, and the combo holds exactly
one entry per listed code plus the one "System default" entry (which carries no
data): one more entry than there are codes. -/
theorem combo_has_entry_for_each_language (env : Env) (prefs : Preferences)
    (updater : Option AutoUpdater) :
    (∀ c ∈ env.availableLanguages,
      ∃ it ∈ (PreferencesDialog.create env prefs updater).ui.languageCombo.items,
        it.userData = .string c) ∧
    ((PreferencesDialog.create env prefs updater).ui.languageCombo.items.map
        ComboItem.userData).Perm
      (.invalid :: env.availableLanguages.map QVariant.string) ∧
    (PreferencesDialog.create env prefs updater).ui.languageCombo.count =
      env.availableLanguages.length + 1 := by
  have hperm := List.perm_insertionSort textLE (env.availableLanguages.map (languageItem env))
  refine ⟨fun c hc => ?_, ?_, ?_⟩
  · refine ⟨languageItem env c, ?_, rfl⟩
    rw [create_items]
    exact List.mem_cons_of_mem _ (hperm.mem_iff.mpr (List.mem_map_of_mem _ hc))
  · rw [create_items, List.map_cons]
    refine List.Perm.cons _ ((hperm.map _).trans ?_)
    rw [List.map_map]
    exact List.Perm.of_eq (List.map_congr_left (fun _ _ => rfl))
  · rw [QComboBox.count, create_items, List.length_cons, hperm.length_eq, List.length_map]
    rfl

/-- C1 at a concrete input: with Dutch the only translation, the constructed combo
has a row carrying the code "nl". -/
theorem combo_has_entry_for_each_language_witness :
    "nl" ∈ sampleEnv.availableLanguages ∧
    ∃ it ∈ (PreferencesDialog.create sampleEnv samplePrefs none).ui.languageCombo.items,
      it.userData = .string "nl" :=
  ⟨List.mem_singleton.mpr rfl,
    (combo_has_entry_for_each_language sampleEnv samplePrefs none).1 "nl"
      (List.mem_singleton.mpr rfl)⟩

/-- C2: after construction the entry at index 0 of the language combo is the
"System default" entry, labelled with the translation of "System default" and
carrying no locale code, whatever order the sort gave the other entries; the
entries after it are the language entries, in ascending order of display name. -/
theorem system_default_first_then_sorted (env : Env) (prefs : Preferences)
    (updater : Option AutoUpdater) :
    (PreferencesDialog.create env prefs updater).ui.languageCombo.items[0]? =
      some ⟨env.tr "System default", .invalid⟩ ∧
    (PreferencesDialog.create env prefs updater).ui.languageCombo.itemData 0 = .invalid ∧
    ((PreferencesDialog.create env prefs updater).ui.languageCombo.items.tail.map
        ComboItem.text).Sorted (· ≤ ·) ∧
    (PreferencesDialog.create env prefs updater).ui.languageCombo.items.tail.Perm
      (env.availableLanguages.map (languageItem env)) := by
  have hitems := create_items env prefs updater
  refine ⟨?_, ?_, ?_, ?_⟩
  · rw [hitems, List.getElem?_cons_zero]
  · rw [create_itemData, builtCombo_itemData_zero]
  · rw [hitems, List.tail_cons]
    exact List.pairwise_map.mpr (List.sorted_insertionSort textLE _)
  · rw [hitems, List.tail_cons]
    exact List.perm_insertionSort textLE _

/-- C3: when the language code stored in Preferences is not the item data of any
combo entry, so that `findData` returns -1, `fromPreferences` sets the current
index of the language combo to 0, in the call the constructor makes and hence in
the constructed dialog; the index is not left at -1. -/
theorem unmatched_language_selects_index_zero (env : Env) (prefs : Preferences)
    (updater : Option AutoUpdater)
    (h : (PreferencesDialog.buildWidgets env prefs updater).ui.languageCombo.findData
      (.string prefs.language) = -1) :
    (fromPreferences env
      (PreferencesDialog.buildWidgets env prefs updater)).ui.languageCombo.currentIndex = 0 ∧
    (PreferencesDialog.create env prefs updater).ui.languageCombo.currentIndex = 0 ∧
    (PreferencesDialog.create env prefs updater).ui.languageCombo.currentIndex ≠ -1 := by
  have hv := languageIndex_valid (builtCombo env) prefs.language (builtCombo_count_pos env)
  have hc := create_languageCombo env prefs updater
  have h0 : languageIndex (builtCombo env) prefs.language = 0 := by
    rw [buildWidgets_eq] at h
    simp only [languageIndex] at h ⊢
    rw [if_pos h]
  refine ⟨?_, by rw [hc, h0], by rw [hc, h0]; exact Int.zero_ne_negSucc 0⟩
  rw [buildWidgets_eq, fromPreferences_quiet env (by rfl)]
  simp only
  rw [setCurrentIndex_valid _ _ hv.1 hv.2, h0]

/-- C3 at a concrete input: French is stored, only Dutch is offered, `findData`
returns -1 and the dialog selects index 0. -/
theorem unmatched_language_selects_index_zero_witness :
    (PreferencesDialog.buildWidgets sampleEnv samplePrefs none).ui.languageCombo.findData
      (.string samplePrefs.language) = -1 ∧
    (PreferencesDialog.create sampleEnv samplePrefs none).ui.languageCombo.currentIndex = 0 := by
  have hfind :
      (PreferencesDialog.buildWidgets sampleEnv samplePrefs none).ui.languageCombo.findData
        (.string samplePrefs.language) = -1 := by
    rw [findData_eq_neg_one_iff, buildWidgets_eq]
    simp [builtCombo_items, sampleEnv, samplePrefs, languageItem]
  exact ⟨hfind, (unmatched_language_selects_index_zero sampleEnv samplePrefs none hfind).2.1⟩

/-- C4 as stated fails: when the list of available locale codes contains the empty
string, index 1 of the constructed combo is a valid index other than 0 and
`languageSelected(1)` stores the empty string as the Preferences language. -/
theorem empty_code_row_also_clears_language :
    (1 : Int) < (PreferencesDialog.create emptyCodeEnv samplePrefs none).ui.languageCombo.count ∧
    (languageSelected 1 (PreferencesDialog.create emptyCodeEnv samplePrefs none)).prefCalls =
      [.setLanguage ""] ∧
    (languageSelected 1
      (PreferencesDialog.create emptyCodeEnv samplePrefs none)).prefs.language = "" := by
  have hitems := create_items emptyCodeEnv samplePrefs none
  have hdata : (PreferencesDialog.create emptyCodeEnv samplePrefs none).ui.languageCombo.itemData 1
      = .string "" := by
    show QComboBox.itemData _ (Int.ofNat 1) = _
    simp only [QComboBox.itemData, hitems]
    simp [emptyCodeEnv, languageItem]
  refine ⟨?_, ?_, ?_⟩
  · rw [QComboBox.count, hitems]
    simp [emptyCodeEnv]
  · rw [languageSelected_prefCalls, create_prefCalls, hdata]; rfl
  · rw [languageSelected_language, hdata]; rfl

/-- C4, amended: when none of the available locale codes is the empty string, after
construction `languageSelected(0)` stores the empty string as the Preferences
language, and for every other index of the combo, 1 up to the number of codes,
`languageSelected` stores a non-empty locale code of the list; so index 0 is the
only combo index that maps to "no language override". -/
theorem only_index_zero_clears_language (env : Env) (prefs : Preferences)
    (updater : Option AutoUpdater) (hne : ∀ c ∈ env.availableLanguages, c ≠ "") :
    (languageSelected 0 (PreferencesDialog.create env prefs updater)).prefCalls =
      [.setLanguage ""] ∧
    (languageSelected 0 (PreferencesDialog.create env prefs updater)).prefs.language = "" ∧
    ∀ i : Int, 1 ≤ i →
      i < (PreferencesDialog.create env prefs updater).ui.languageCombo.count →
      ∃ c ∈ env.availableLanguages, c ≠ "" ∧
        (languageSelected i (PreferencesDialog.create env prefs updater)).prefCalls =
          [.setLanguage c] ∧
        (languageSelected i (PreferencesDialog.create env prefs updater)).prefs.language = c := by
  have hc := create_languageCombo env prefs updater
  have hcalls := create_prefCalls env prefs updater
  have hdata := create_itemData env prefs updater
  have h0 := builtCombo_itemData_zero env
  refine ⟨?_, ?_, fun i h1 h2 => ?_⟩
  · rw [languageSelected_prefCalls, hcalls, hdata, h0]; rfl
  · rw [languageSelected_language, hdata, h0]; rfl
  · have h2' : i < (builtCombo env).count := by
      rw [hc] at h2; exact h2
    obtain ⟨c, hmem, hrow⟩ := language_row_of_index env i h1 h2'
    refine ⟨c, hmem, hne c hmem, ?_, ?_⟩
    · rw [languageSelected_prefCalls, hcalls, hdata, hrow]; rfl
    · rw [languageSelected_language, hdata, hrow]; rfl

/-- C4, amended, at a concrete input: with Dutch the only translation, index 0
stores the empty string and index 1 stores a non-empty code. -/
theorem only_index_zero_clears_language_witness :
    (∀ c ∈ sampleEnv.availableLanguages, c ≠ "") ∧
    (languageSelected 0 (PreferencesDialog.create sampleEnv samplePrefs none)).prefs.language
      = "" ∧
    ∃ c ∈ sampleEnv.availableLanguages, c ≠ "" ∧
      (languageSelected 1 (PreferencesDialog.create sampleEnv samplePrefs none)).prefCalls =
        [.setLanguage c] ∧
      (languageSelected 1
        (PreferencesDialog.create sampleEnv samplePrefs none)).prefs.language = c := by
  have hne : ∀ c ∈ sampleEnv.availableLanguages, c ≠ "" := by
    simp [sampleEnv]
  have hcount :
      (1 : Int) < (PreferencesDialog.create sampleEnv samplePrefs none).ui.languageCombo.count := by
    rw [QComboBox.count, create_items]
    simp [sampleEnv]
  have h := only_index_zero_clears_language sampleEnv samplePrefs none hne
  exact ⟨hne, h.2.1, h.2.2 1 (le_refl 1) hcount⟩

/-- C5: in every state that has the connections the constructor made, so at any
time after construction, toggling one of the check boxes enableDtd,
reloadTilesetImages, openLastFiles, openGL to `b` invokes exactly one Preferences
setter, the corresponding one of setDtdEnabled, setReloadTilesetsOnChanged,
setOpenLastFilesOnStartup, setUseOpenGL, with argument `b`, and no other: the log
of setter invocations grows by that single call. -/
theorem toggling_invokes_one_setter (env : Env) (prefs : Preferences)
    (updater : Option AutoUpdater) (w : World)
    (hw : w.connections = (PreferencesDialog.create env prefs updater).connections)
    (b : Bool) :
    (w.ui.enableDtd.checked = (!b) →
      (toggle .enableDtd w).ui.enableDtd.checked = b ∧
      (toggle .enableDtd w).prefCalls = w.prefCalls ++ [.setDtdEnabled b]) ∧
    (w.ui.reloadTilesetImages.checked = (!b) →
      (toggle .reloadTilesetImages w).ui.reloadTilesetImages.checked = b ∧
      (toggle .reloadTilesetImages w).prefCalls =
        w.prefCalls ++ [.setReloadTilesetsOnChanged b]) ∧
    (w.ui.openLastFiles.checked = (!b) →
      (toggle .openLastFiles w).ui.openLastFiles.checked = b ∧
      (toggle .openLastFiles w).prefCalls = w.prefCalls ++ [.setOpenLastFilesOnStartup b]) ∧
    (w.ui.openGL.checked = (!b) →
      (toggle .openGL w).ui.openGL.checked = b ∧
      (toggle .openGL w).prefCalls = w.prefCalls ++ [.setUseOpenGL b]) := by
  rw [create_eq] at hw
  simp only at hw
  obtain ⟨p, calls, u, langs, ui, conns⟩ := w
  simp only at hw
  subst hw
  refine ⟨fun h => ?_, fun h => ?_, fun h => ?_, fun h => ?_⟩ <;>
    simp only at h <;>
    simp [toggle, setChecked, Ui.checkBox, Ui.withCheckBox, h, emit, wiring, CheckBoxId.sender,
      invoke, World.callPrefs]

/-- C5 at a concrete input: in the freshly constructed dialog all four check boxes
are unchecked and the log is empty; checking each invokes its own setter once,
with `true`. -/
theorem toggling_invokes_one_setter_witness :
    (toggle .enableDtd (PreferencesDialog.create sampleEnv samplePrefs none)).prefCalls =
      [.setDtdEnabled true] ∧
    (toggle .reloadTilesetImages (PreferencesDialog.create sampleEnv samplePrefs none)).prefCalls =
      [.setReloadTilesetsOnChanged true] ∧
    (toggle .openLastFiles (PreferencesDialog.create sampleEnv samplePrefs none)).prefCalls =
      [.setOpenLastFilesOnStartup true] ∧
    (toggle .openGL (PreferencesDialog.create sampleEnv samplePrefs none)).prefCalls =
      [.setUseOpenGL true] := by
  have h := toggling_invokes_one_setter sampleEnv samplePrefs none
    (PreferencesDialog.create sampleEnv samplePrefs none) rfl true
  have hw := create_eq sampleEnv samplePrefs none
  have hcalls := create_prefCalls sampleEnv samplePrefs none
  rw [hcalls] at h
  exact ⟨(h.1 (by rw [hw]; rfl)).2, (h.2.1 (by rw [hw]; rfl)).2,
    (h.2.2.1 (by rw [hw]; rfl)).2, (h.2.2.2 (by rw [hw]; rfl)).2⟩

/-- C6: when there is no AutoUpdater, after `fromPreferences` the auto-update check
box and the check-for-updates button are disabled, the check box is unchecked as
the form left it, and the last-checked label has the text it had before the
call; `autoUpdateToggled` and `checkForUpdates` change nothing, in the
constructed dialog and in any state without an updater. -/
theorem no_updater_disables_update_controls (env : Env) (prefs : Preferences) :
    (PreferencesDialog.create env prefs none).ui.autoUpdateCheckBox.enabled = false ∧
    (PreferencesDialog.create env prefs none).ui.checkForUpdate.enabled = false ∧
    (PreferencesDialog.create env prefs none).ui.autoUpdateCheckBox.checked = false ∧
    (fromPreferences env
      (PreferencesDialog.buildWidgets env prefs none)).ui.lastAutoUpdateCheckLabel =
      (PreferencesDialog.buildWidgets env prefs none).ui.lastAutoUpdateCheckLabel ∧
    (PreferencesDialog.create env prefs none).ui.lastAutoUpdateCheckLabel =
      (setupUi env).lastAutoUpdateCheckLabel ∧
    (∀ checked, autoUpdateToggled checked (PreferencesDialog.create env prefs none) =
      PreferencesDialog.create env prefs none) ∧
    checkForUpdates (PreferencesDialog.create env prefs none) =
      PreferencesDialog.create env prefs none ∧
    ∀ w : World, w.updater = none →
      (∀ checked, autoUpdateToggled checked w = w) ∧ checkForUpdates w = w := by
  have hu := create_updater env prefs none
  refine ⟨?_, ?_, ?_, ?_, ?_, fun checked => ?_, ?_, fun w hw => ⟨fun checked => ?_, ?_⟩⟩
  · rw [create_eq]; rfl
  · rw [create_eq]; rfl
  · rw [create_eq]
  · rw [buildWidgets_eq, fromPreferences_quiet env (by rfl)]
  · rw [create_eq]; rfl
  · simp only [autoUpdateToggled, hu]
  · simp only [checkForUpdates, hu]
  · simp only [autoUpdateToggled, hw]
  · simp only [checkForUpdates, hw]

/-- C6 at a concrete input: a state without an updater is left as it is by both
slots. -/
theorem no_updater_disables_update_controls_witness :
    (PreferencesDialog.create sampleEnv samplePrefs none).updater = none ∧
    autoUpdateToggled true (PreferencesDialog.create sampleEnv samplePrefs none) =
      PreferencesDialog.create sampleEnv samplePrefs none ∧
    checkForUpdates (PreferencesDialog.create sampleEnv samplePrefs none) =
      PreferencesDialog.create sampleEnv samplePrefs none :=
  ⟨create_updater sampleEnv samplePrefs none,
    ((no_updater_disables_update_controls sampleEnv samplePrefs).2.2.2.2.2.2.2 _
      (create_updater sampleEnv samplePrefs none)).1 true,
    ((no_updater_disables_update_controls sampleEnv samplePrefs).2.2.2.2.2.2.2 _
      (create_updater sampleEnv samplePrefs none)).2⟩

/-- C7 as stated fails: on a runtime without OpenGL the openGL check box is disabled
and stays unchecked although the stored useOpenGL setting is true; a stored
gridFine of 1000 is shown as 128, the maximum of the spin box; and a stored
objectLineWidth of 1.234 is shown as 1.2, rounded to the one decimal of the spin
box. -/
theorem widgets_differ_from_preferences :
    (PreferencesDialog.create sampleEnv wideGridPrefs none).ui.openGL.enabled = false ∧
    (PreferencesDialog.create sampleEnv wideGridPrefs none).ui.openGL.checked = false ∧
    wideGridPrefs.useOpenGL = true ∧
    (PreferencesDialog.create sampleEnv wideGridPrefs none).ui.gridFine.value = 128 ∧
    wideGridPrefs.gridFine = 1000 ∧
    (PreferencesDialog.create sampleEnv wideGridPrefs none).ui.objectLineWidth.value = 6 / 5 ∧
    wideGridPrefs.objectLineWidth = 617 / 500 := by
  rw [create_eq]
  refine ⟨rfl, rfl, rfl, ?_, rfl, ?_, rfl⟩
  · decide
  · have hr : sampleEnv.roundObjectLineWidth wideGridPrefs.objectLineWidth = 6 / 5 := by
      exact roundToTenths_example
    simp only [QDoubleSpinBox.bound, hr]
    show (if (6 / 5 : qreal) < 0 then (0 : qreal) else if (100 : qreal) < 6 / 5 then 100
      else 6 / 5) = 6 / 5
    norm_num

/-- C7, amended: after construction the check boxes reloadTilesetImages, enableDtd and
openLastFiles show reloadTilesetsOnChange, dtdEnabled and openLastFilesOnStartup
and gridColor shows the stored colour, for every Preferences state; gridFine
shows the stored value bounded to the range of its spin box, hence the stored
value itself when that lies in the range; objectLineWidth shows the stored value
rounded to the decimals of its spin box and then bounded to its range, hence the
stored value itself when rounding leaves it as it is and it lies in the range;
the openGL check box is enabled exactly when the runtime has OpenGL, and it is
checked exactly when the runtime has OpenGL and useOpenGL is set, so without
OpenGL it is disabled and unchecked whatever useOpenGL is. -/
theorem widgets_show_preferences (env : Env) (prefs : Preferences)
    (updater : Option AutoUpdater) :
    (PreferencesDialog.create env prefs updater).ui.reloadTilesetImages.checked =
      prefs.reloadTilesetsOnChange ∧
    (PreferencesDialog.create env prefs updater).ui.enableDtd.checked = prefs.dtdEnabled ∧
    (PreferencesDialog.create env prefs updater).ui.openLastFiles.checked =
      prefs.openLastFilesOnStartup ∧
    (PreferencesDialog.create env prefs updater).ui.gridColor.color = prefs.gridColor ∧
    (PreferencesDialog.create env prefs updater).ui.gridFine.value =
      (if prefs.gridFine < env.gridFineMinimum then env.gridFineMinimum
        else if env.gridFineMaximum < prefs.gridFine then env.gridFineMaximum
        else prefs.gridFine) ∧
    (env.gridFineMinimum ≤ prefs.gridFine → prefs.gridFine ≤ env.gridFineMaximum →
      (PreferencesDialog.create env prefs updater).ui.gridFine.value = prefs.gridFine) ∧
    (PreferencesDialog.create env prefs updater).ui.objectLineWidth.value =
      (if env.roundObjectLineWidth prefs.objectLineWidth < env.objectLineWidthMinimum then
          env.objectLineWidthMinimum
        else if env.objectLineWidthMaximum < env.roundObjectLineWidth prefs.objectLineWidth then
          env.objectLineWidthMaximum
        else env.roundObjectLineWidth prefs.objectLineWidth) ∧
    (env.roundObjectLineWidth prefs.objectLineWidth = prefs.objectLineWidth →
      env.objectLineWidthMinimum ≤ prefs.objectLineWidth →
      prefs.objectLineWidth ≤ env.objectLineWidthMaximum →
      (PreferencesDialog.create env prefs updater).ui.objectLineWidth.value =
        prefs.objectLineWidth) ∧
    (PreferencesDialog.create env prefs updater).ui.openGL.enabled = env.hasOpenGL ∧
    (PreferencesDialog.create env prefs updater).ui.openGL.checked =
      (env.hasOpenGL && prefs.useOpenGL) := by
  rw [create_eq]
  refine ⟨rfl, rfl, rfl, rfl, rfl, fun h1 h2 => ?_, rfl, fun hr h1 h2 => ?_, rfl, rfl⟩
  · simp only [QSpinBox.bound]
    rw [if_neg (not_lt.mpr h1), if_neg (not_lt.mpr h2)]
  · simp only [QDoubleSpinBox.bound, hr]
    rw [if_neg (not_lt.mpr h1), if_neg (not_lt.mpr h2)]

/-- C7, amended, at a concrete input: 4 grid divisions lie in the range 1 .. 128 and
a line width of 2 has no more than one decimal and lies in 0 .. 100, so both spin
boxes show the stored value. -/
theorem widgets_show_preferences_witness :
    (sampleEnv.gridFineMinimum ≤ samplePrefs.gridFine ∧
      samplePrefs.gridFine ≤ sampleEnv.gridFineMaximum) ∧
    (PreferencesDialog.create sampleEnv samplePrefs none).ui.gridFine.value =
      samplePrefs.gridFine ∧
    (sampleEnv.roundObjectLineWidth samplePrefs.objectLineWidth = samplePrefs.objectLineWidth ∧
      sampleEnv.objectLineWidthMinimum ≤ samplePrefs.objectLineWidth ∧
      samplePrefs.objectLineWidth ≤ sampleEnv.objectLineWidthMaximum) ∧
    (PreferencesDialog.create sampleEnv samplePrefs none).ui.objectLineWidth.value =
      samplePrefs.objectLineWidth := by
  have h := widgets_show_preferences sampleEnv samplePrefs none
  have hg : sampleEnv.gridFineMinimum ≤ samplePrefs.gridFine ∧
      samplePrefs.gridFine ≤ sampleEnv.gridFineMaximum := by
    decide
  have hr : sampleEnv.roundObjectLineWidth samplePrefs.objectLineWidth =
      samplePrefs.objectLineWidth := by
    exact roundToTenths_two
  have hl : sampleEnv.objectLineWidthMinimum ≤ samplePrefs.objectLineWidth ∧
      samplePrefs.objectLineWidth ≤ sampleEnv.objectLineWidthMaximum := by
    show (0 : qreal) ≤ 2 ∧ (2 : qreal) ≤ 100
    norm_num
  exact ⟨hg, h.2.2.2.2.2.1 hg.1 hg.2, ⟨hr, hl⟩, h.2.2.2.2.2.2.2.1 hr hl.1 hl.2⟩

/-- C8: for every combo index, calling `languageSelected` twice in a row makes two
`setLanguage` calls with the same argument, the item data of that row as a
string, and the Preferences state after the second call is the state after the
first. -/
theorem languageSelected_twice (w : World) (i : Int) :
    (languageSelected i (languageSelected i w)).prefCalls =
      w.prefCalls ++ [.setLanguage (w.ui.languageCombo.itemData i).toString,
        .setLanguage (w.ui.languageCombo.itemData i).toString] ∧
    (languageSelected i (languageSelected i w)).prefs = (languageSelected i w).prefs ∧
    (languageSelected i (languageSelected i w)).prefs.language =
      (languageSelected i w).prefs.language := by
  refine ⟨?_, rfl, rfl⟩
  simp [languageSelected, World.callPrefs]

/-- C9: when the stored language code occurs in the list of available locale codes,
the row that `fromPreferences` makes current has that code as item data, so
`languageSelected` on the current index calls `setLanguage` with the stored code
and leaves the Preferences state as it was. -/
theorem stored_language_round_trip (env : Env) (prefs : Preferences)
    (updater : Option AutoUpdater) (h : prefs.language ∈ env.availableLanguages) :
    (PreferencesDialog.create env prefs updater).ui.languageCombo.itemData
        (PreferencesDialog.create env prefs updater).ui.languageCombo.currentIndex =
      .string prefs.language ∧
    (languageSelected (PreferencesDialog.create env prefs updater).ui.languageCombo.currentIndex
        (PreferencesDialog.create env prefs updater)).prefCalls = [.setLanguage prefs.language] ∧
    (languageSelected (PreferencesDialog.create env prefs updater).ui.languageCombo.currentIndex
        (PreferencesDialog.create env prefs updater)).prefs = prefs := by
  have hc := create_languageCombo env prefs updater
  have hfound : (builtCombo env).findData (.string prefs.language) ≠ -1 := by
    intro hneg
    refine (findData_eq_neg_one_iff _ _).mp hneg (languageItem env prefs.language) ?_ rfl
    rw [builtCombo_items]
    exact List.mem_cons_of_mem _
      ((List.perm_insertionSort textLE _).mem_iff.mpr (List.mem_map_of_mem _ h))
  have hidx : (PreferencesDialog.create env prefs updater).ui.languageCombo.currentIndex =
      (builtCombo env).findData (.string prefs.language) := by
    rw [hc]
    simp only [languageIndex]
    rw [if_neg hfound]
  have hdata : (PreferencesDialog.create env prefs updater).ui.languageCombo.itemData
      (PreferencesDialog.create env prefs updater).ui.languageCombo.currentIndex =
        .string prefs.language := by
    rw [hidx, create_itemData]
    exact (findData_found _ _ hfound).2.2
  refine ⟨hdata, ?_, ?_⟩
  · rw [languageSelected_prefCalls, create_prefCalls, hdata]; rfl
  · rw [languageSelected_prefs, hdata, create_prefs]
    rfl

/-- C9 at a concrete input: Dutch is stored and offered; selecting the current row
again stores Dutch and leaves the settings unchanged. -/
theorem stored_language_round_trip_witness :
    dutchPrefs.language ∈ sampleEnv.availableLanguages ∧
    (languageSelected (PreferencesDialog.create sampleEnv dutchPrefs none).ui.languageCombo.currentIndex
        (PreferencesDialog.create sampleEnv dutchPrefs none)).prefs = dutchPrefs :=
  ⟨List.mem_singleton.mpr rfl,
    (stored_language_round_trip sampleEnv dutchPrefs none (List.mem_singleton.mpr rfl)).2.2⟩

/-- The order of the constructor matters in this model: had the signals been
connected before `fromPreferences` ran, filling the widgets would have written to
Preferences; here the unmatched stored language would be overwritten by the empty
one. -/
theorem connecting_first_would_write :
    (fromPreferences exactEnv (PreferencesDialog.connectSignals
      (PreferencesDialog.buildWidgets exactEnv samplePrefs none))).prefCalls =
      [.setLanguage "", .setGridFine 4, .setObjectLineWidth 2] := by
  decide

/-- C10: constructing the dialog does not write to Preferences.  `fromPreferences`
fills the widgets before any signal is connected to a setter, so for every
initial Preferences state, matched language or not, no setter is invoked by
`fromPreferences` nor by the constructor as a whole, and the Preferences state
after the constructor returns is the state before it. -/
theorem construction_leaves_preferences_alone (env : Env) (prefs : Preferences)
    (updater : Option AutoUpdater) :
    (fromPreferences env (PreferencesDialog.buildWidgets env prefs updater)).prefCalls = [] ∧
    (PreferencesDialog.create env prefs updater).prefCalls = [] ∧
    (PreferencesDialog.create env prefs updater).prefs = prefs := by
  refine ⟨?_, ?_, ?_⟩
  · rw [buildWidgets_eq, fromPreferences_quiet env (by rfl)]
  · rw [create_eq]
  · rw [create_eq]

end Tiled
